import Mathlib

/-!
Shallow embedding of `src/weather.py` (crypticani/weather-app), a CLI
utility that fetches current weather for a city and prints a one-line
colorized summary.  Python-level failure modes (exceptions, `sys.exit`)
are made explicit with `Except`; machine-level effects (stdout, the one
network call) are threaded explicitly.
-/

namespace Weather

/-- Modelled from the spec: the `style` module imported by `weather.py` is
not present in the source tree.  Per §4.5/§4.6 it supplies symbolic
terminal style tokens (RED, CYAN, BLUE, WHITE, YELLOW, REVERSE, RESET)
and a fixed field width PADDING; we model the tokens as an enumeration. -/
inductive Color where
  | red
  | cyan
  | blue
  | white
  | yellow
  | reverse
  | reset
  deriving Repr, DecidableEq

/-- Modelled from the spec: the fixed field width used to center the
condition text (§4.6).  Its exact value is not given by the spec and does
not affect any claim below. -/
def PADDING : Nat := 20

/-- The Python exceptions that the code paths modelled here can raise. -/
inductive PyExc where
  /-- `TypeError`, e.g. `x in y` where `y` is an `int` (not iterable). -/
  | typeError
  /-- `KeyError(key)` from a dict / ConfigParser subscript. -/
  | keyError (key : String)
  /-- `AttributeError` from looking up a missing module attribute. -/
  | attributeError (attr : String)
  /-- `urllib.error.URLError` raised by `urlopen` on transport failure. -/
  | urlError (reason : String)
  deriving Repr, DecidableEq

/-- How a run of the program terminates abnormally. -/
inductive PyTerm where
  /-- `sys.exit(msg)`: prints `msg` to stderr and exits with status 1. -/
  | exitMsg (msg : String)
  /-- argparse usage error: prints usage to stderr and exits with status 2. -/
  | usageExit (msg : String)
  /-- an unhandled Python exception: traceback on stderr, status 1. -/
  | exc (e : PyExc)
  deriving Repr, DecidableEq

/-- `true` iff the termination is a clean `sys.exit` / argparse message
(as opposed to an unhandled exception traceback). -/
def PyTerm.isCleanExit : PyTerm → Bool
  | .exitMsg _ => true
  | .usageExit _ => true
  | .exc _ => false

/-- Result of running a fragment of Python code: normal value or
abnormal termination. -/
abbrev Py (α : Type) := Except PyTerm α

/-- A Python value as used by the condition-code tables of `weather.py`:
`SUNNY` is an `int`, the other six tables are `list`s of `int`. -/
inductive PyVal where
  | int (n : Int)
  | list (l : List Int)
  deriving Repr, DecidableEq

/-- Python's `x in y` for an integer `x`: membership test when `y` is a
list; `TypeError` when `y` is an `int` (an `int` is not iterable). -/
def pyIn (x : Int) : PyVal → Except PyExc Bool
  | .list l => .ok (l.contains x)
  | .int _ => .error .typeError

/-- The integer codes a `PyVal` table covers (for stating theorems). -/
def PyVal.codes : PyVal → List Int
  | .int n => [n]
  | .list l => l

-- Weather condition code tables, `weather.py` lines 13-19.
def SUNNY : PyVal := .int 1000
def CLOUDY : PyVal := .list [1003, 1006, 1009]
def RAIN : PyVal :=
  .list [1063, 1180, 1183, 1186, 1189, 1192, 1195, 1198, 1201, 1240, 1243, 1246, 1249]
def ATMOSPHERE : PyVal := .list [1030, 1135, 1147]
def SNOW : PyVal :=
  .list [1066, 1069, 1114, 1204, 1207, 1210, 1213, 1216, 1219, 1222, 1225, 1237,
         1252, 1255, 1258, 1261, 1264]
def DRIZZLE : PyVal := .list [1072, 1150, 1153, 1168, 1171]
def THUNDERSTORM : PyVal := .list [1087, 1273, 1276, 1279, 1282]

/-- `_select_weather_display_params`, `weather.py` lines 114-131.  Each
`elif weather_id in TABLE` is one `pyIn` test; the sixth test is
`weather_id in SUNNY` where `SUNNY` is the `int` 1000, so reaching it
raises `TypeError` (`argument of type 'int' is not iterable`). -/
def _select_weather_display_params (weather_id : Int) : Except PyExc (String × Color) := do
  if ← pyIn weather_id THUNDERSTORM then
    pure ("💥", Color.red)
  else if ← pyIn weather_id DRIZZLE then
    pure ("💧", Color.cyan)
  else if ← pyIn weather_id RAIN then
    pure ("💦", Color.blue)
  else if ← pyIn weather_id SNOW then
    pure ("⛄️", Color.white)
  else if ← pyIn weather_id ATMOSPHERE then
    pure ("🌀", Color.blue)
  else if ← pyIn weather_id SUNNY then
    pure ("🔆", Color.yellow)
  else if ← pyIn weather_id CLOUDY then
    pure ("💨", Color.white)
  else
    pure ("🌈", Color.reset)

/-- A parsed INI configuration: a list of sections, each holding key/value
pairs.  `ConfigParser.read` on a missing `secrets.ini` silently produces
an empty configuration (it does not raise), so a missing file is the
empty list here. -/
abbrev Config := List (String × List (String × String))

/-- Python dict-style subscript `m[key]` on a `ConfigParser` or on a
section proxy: raises `KeyError(key)` when the key is absent. -/
def pyGetItem {α : Type} (assoc : List (String × α)) (key : String) :
    Except PyExc α :=
  match assoc.lookup key with
  | some v => .ok v
  | none => .error (.keyError key)

/-- `_get_api_key`, `weather.py` lines 22-30: reads
`config["weatherapi"]["api_key"]` from the parsed `secrets.ini`. -/
def _get_api_key (cfg : Config) : Except PyExc String := do
  let sec ← pyGetItem cfg "weatherapi"
  pyGetItem sec "api_key"

/-- Uppercase hexadecimal digit for `n < 16`. -/
def hexDigit (n : Nat) : Char :=
  if n < 10 then Char.ofNat (48 + n) else Char.ofNat (55 + n)

/-- `%XX` escape for one byte. -/
def percentEncodeByte (b : Nat) : String :=
  String.mk ['%', hexDigit (b / 16 % 16), hexDigit (b % 16)]

/-- Characters `urllib.parse.quote_plus` leaves unescaped (with the
default empty `safe` argument): ASCII letters, digits, and `_.-~`. -/
def isUrlSafeChar (c : Char) : Bool :=
  c.isAlphanum && c.toNat < 128 || c == '_' || c == '.' || c == '-' || c == '~'

/-- `urllib.parse.quote_plus`: spaces become `+`, safe characters pass
through, every other character is replaced by the `%XX` escapes of its
UTF-8 bytes. -/
def quote_plus (s : String) : String :=
  String.join (s.data.map fun c =>
    if c == ' ' then "+"
    else if isUrlSafeChar c then String.singleton c
    else String.join (((String.utf8EncodeChar c).map UInt8.toNat).map
      percentEncodeByte))

/-- Python's `sep.join(xs)`: the elements of `xs` separated by `sep`. -/
def pyJoin (sep : String) : List String → String
  | [] => ""
  | [x] => x
  | x :: y :: xs => x ++ sep ++ pyJoin sep (y :: xs)

def BASE_WEATHER_API_URL : String := "http://api.weatherapi.com/v1/current.json"

/-- `build_weather_query`, `weather.py` lines 50-65.  Note: line 59
computes `url_encoded_city_name = parse.quote_plus(city_name)` but the
f-string on line 62 interpolates the raw `city_name`, so the encoded
variable is dead and the returned URL contains the city text unescaped. -/
def build_weather_query (city_input : List String) (cfg : Config) : Py String := do
  let api_key ← (_get_api_key cfg).mapError PyTerm.exc
  let city_name := pyJoin " " city_input
  let _url_encoded_city_name := quote_plus city_name
  pure (BASE_WEATHER_API_URL ++ "?key=" ++ api_key ++ "&q=" ++ city_name)

/-- The four response fields the program reads (spec §3).  Bodies that
parse as JSON but lack one of these fields are outside the runs modelled
here: they raise `KeyError` in `display_weather_info` before anything is
printed. -/
structure WeatherData where
  locationName : String
  conditionText : String
  conditionCode : Int
  temp_c : Int
  deriving Repr, DecidableEq

/-- A 2xx response body, classified by whether `json.loads` accepts it. -/
inductive Body where
  /-- parses as JSON into a complete weather payload -/
  | jsonBody (w : WeatherData)
  /-- `json.loads` raises `JSONDecodeError` -/
  | malformed (raw : String)
  deriving Repr, DecidableEq

/-- Behaviour of the one `urlopen` call, as seen by `get_weather_data`. -/
inductive HttpResult where
  /-- HTTP 2xx: `urlopen` returns a response object with this body -/
  | success (body : Body)
  /-- HTTP non-2xx: `urlopen` raises `urllib.error.HTTPError` whose
  `.code` is this status -/
  | httpError (code : Nat)
  /-- transport failure (DNS, connection refused, timeout): `urlopen`
  raises `urllib.error.URLError` with this reason -/
  | transportFailure (reason : String)
  deriving Repr, DecidableEq

/-- `get_weather_data`, `weather.py` lines 68-83.
On `HTTPError` the handler (lines 72-77) evaluates `error.http_error.code`,
but `error` is the `urllib.error` module, which has no attribute
`http_error`; the lookup raises `AttributeError` before any of the three
`sys.exit` calls, so those branches are unreachable.
`URLError` (transport failure) is not caught by `except error.HTTPError`
and propagates unhandled.
On 2xx, `response.read()` is followed by `json.loads`; a
`JSONDecodeError` is caught and converted to `sys.exit`. -/
def get_weather_data (http : HttpResult) : Py WeatherData :=
  match http with
  | .success body =>
    match body with
    | .jsonBody w => .ok w
    | .malformed _ => .error (.exitMsg "Couldn't read the server response.")
  | .httpError _code => .error (.exc (.attributeError "http_error"))
  | .transportFailure reason => .error (.exc (.urlError reason))

/-- Python's `str.capitalize`: first character uppercased, the rest
lowercased. -/
def pyCapitalize (s : String) : String :=
  match s.data with
  | [] => ""
  | c :: cs => String.mk (c.toUpper :: cs.map Char.toLower)

/-- Python's format spec `^width`: center in `width`, extra padding going
to the right. -/
def padCenter (s : String) (width : Nat) : String :=
  let len := s.length
  if width ≤ len then s
  else
    let pad := width - len
    let left := pad / 2
    String.mk (List.replicate left ' ') ++ s ++
      String.mk (List.replicate (pad - left) ' ')

/-- `display_weather_info`, `weather.py` lines 86-111: returns the list of
text chunks printed to stdout (style escape emissions elided) together
with the abnormal termination, if any.  The city segment is printed on
line 99, *before* `_select_weather_display_params` is called on line 102,
so a classifier exception leaves the city segment already written. -/
def display_weather_info (w : WeatherData) : List String × Option PyTerm :=
  let city := w.locationName
  let region := w.locationName
  let condition := w.conditionText
  let temperature := w.temp_c
  let weather_id := w.conditionCode
  let cityChunk := city ++ " (" ++ region ++ ")"
  match _select_weather_display_params weather_id with
  | .error e => ([cityChunk], some (.exc e))
  | .ok (weather_symbol, _color) =>
    ([cityChunk,
      "\t" ++ weather_symbol ++ " ",
      padCenter (pyCapitalize condition) PADDING ++ " ",
      "(" ++ toString temperature ++ "°C)\n"], none)

/-- `read_user_cli_args`, `weather.py` lines 33-47: argparse with a
required variadic positional `city` (`nargs="+"`).  With no tokens,
argparse prints usage and exits with status 2; otherwise the namespace
carries the token list unchanged. -/
def read_user_cli_args (argv : List String) : Py (List String) :=
  if argv.isEmpty then
    .error (.usageExit "the following arguments are required: city")
  else
    .ok argv

/-- Everything observable about one run of the `__main__` block. -/
structure RunTrace where
  /-- text chunks written to stdout -/
  stdout : List String
  /-- number of outbound network calls performed -/
  netCalls : Nat
  /-- abnormal termination, or `none` for a clean status-0 exit -/
  term : Option PyTerm
  deriving Repr, DecidableEq

/-- The `__main__` block, `weather.py` lines 134-138, with the
environment (argv, parsed `secrets.ini`, HTTP layer behaviour) passed
explicitly.  `get_weather_data` is the only point that performs a network
call, and it performs exactly one `urlopen`. -/
def mainRun (argv : List String) (cfg : Config) (http : HttpResult) : RunTrace :=
  match read_user_cli_args argv with
  | .error t => ⟨[], 0, some t⟩
  | .ok city =>
    match build_weather_query city cfg with
    | .error t => ⟨[], 0, some t⟩
    | .ok _url =>
      match get_weather_data http with
      | .error t => ⟨[], 1, some t⟩
      | .ok w =>
        let (out, t) := display_weather_info w
        ⟨out, 1, t⟩

end Weather

deriving instance DecidableEq for Except

namespace Weather

/-- A configuration with the `weatherapi` section and `api_key` present. -/
def testCfg : Config := [("weatherapi", [("api_key", "KEY")])]

/-- A well-formed response payload with the Sunny condition code 1000. -/
def parisData : WeatherData := ⟨"Paris", "Clear", 1000, 22⟩

/-- The tail of a separator-joined list: `sep ++ a₁ ++ sep ++ a₂ ++ ⋯`. -/
def sepRest (sep : String) : List String → String
  | [] => ""
  | a :: as => sep ++ a ++ sepRest sep as

theorem intercalate_go_eq (sep : String) (as : List String) :
    ∀ acc : String, String.intercalate.go acc sep as = acc ++ sepRest sep as := by
  induction as with
  | nil => intro acc; simp [String.intercalate.go, sepRest]
  | cons a as ih =>
    intro acc
    simp [String.intercalate.go, sepRest, ih, String.append_assoc]

theorem pyJoin_cons (sep : String) (a : String) (as : List String) :
    pyJoin sep (a :: as) = a ++ sepRest sep as := by
  induction as generalizing a with
  | nil => simp [pyJoin, sepRest]
  | cons b bs ih =>
    show a ++ sep ++ pyJoin sep (b :: bs) = _
    rw [ih b]
    simp [sepRest, String.append_assoc]

/-- Python's `sep.join` agrees with `String.intercalate`. -/
theorem pyJoin_eq_intercalate (sep : String) (l : List String) :
    pyJoin sep l = String.intercalate sep l := by
  cases l with
  | nil => rfl
  | cons a as =>
    rw [pyJoin_cons]
    show _ = String.intercalate.go a sep as
    rw [intercalate_go_eq]

/-- C1: the §4.5 table claim fails on the code.  The five tables tested
before the Sunny branch (Thunderstorm, Drizzle, Rain, Snow, Atmosphere)
do return exactly the table's (glyph, color) pairs, but the Sunny code
1000 — and with it every Cloudy code — reaches `weather_id in SUNNY`
where `SUNNY` is the `int` 1000, which raises `TypeError` instead of
returning ("🔆", yellow). -/
theorem C1_table_vs_classifier :
    (∀ c ∈ THUNDERSTORM.codes,
      _select_weather_display_params c = .ok ("💥", Color.red)) ∧
    (∀ c ∈ DRIZZLE.codes,
      _select_weather_display_params c = .ok ("💧", Color.cyan)) ∧
    (∀ c ∈ RAIN.codes,
      _select_weather_display_params c = .ok ("💦", Color.blue)) ∧
    (∀ c ∈ SNOW.codes,
      _select_weather_display_params c = .ok ("⛄️", Color.white)) ∧
    (∀ c ∈ ATMOSPHERE.codes,
      _select_weather_display_params c = .ok ("🌀", Color.blue)) ∧
    _select_weather_display_params 1000 = .error .typeError := by
  decide

/-- C1 witness: the theorem applied at the concrete Thunderstorm code
1087. -/
theorem C1_table_vs_classifier_witness :
    _select_weather_display_params 1087 = .ok ("💥", Color.red) :=
  C1_table_vs_classifier.1 1087 (by decide)

/-- C2: totality fails.  The Cloudy code 1003 (and likewise the in-table
code 1000 and out-of-table codes) reaches the `weather_id in SUNNY` test
and raises `TypeError`: no (glyph, color) pair is returned. -/
theorem C2_not_total :
    _select_weather_display_params 1003 = .error .typeError ∧
    _select_weather_display_params 0 = .error .typeError :=
  ⟨rfl, rfl⟩

/-- C3: the 🌈 fallback branch is unreachable.  Any integer outside the
five tables tested before the Sunny branch — in particular any integer in
none of the seven sets — raises `TypeError` at `weather_id in SUNNY`
instead of returning ("🌈", reset).  Only the first five exclusions are
needed as hypotheses; codes outside all seven sets satisfy them. -/
theorem C3_fallback_unreachable (id : Int)
    (h1 : id ∉ THUNDERSTORM.codes) (h2 : id ∉ DRIZZLE.codes)
    (h3 : id ∉ RAIN.codes) (h4 : id ∉ SNOW.codes)
    (h5 : id ∉ ATMOSPHERE.codes) :
    _select_weather_display_params id = .error .typeError := by
  simp only [THUNDERSTORM, DRIZZLE, RAIN, SNOW, ATMOSPHERE, PyVal.codes]
    at h1 h2 h3 h4 h5
  simp [_select_weather_display_params, pyIn, THUNDERSTORM, DRIZZLE, RAIN,
    SNOW, ATMOSPHERE, SUNNY, List.contains, h1, h2, h3, h4, h5, bind,
    Except.bind]

/-- C3 witness: the theorem applied at the unknown code 9999. -/
theorem C3_fallback_unreachable_witness :
    _select_weather_display_params 9999 = .error .typeError :=
  C3_fallback_unreachable 9999 (by decide) (by decide) (by decide)
    (by decide) (by decide)

/-- C4: the city text is not percent-encoded in the produced URL.  For
tokens ["new", "york"] the URL carries the raw `q=new york` (the
`quote_plus` result, which would be "new+york", is computed on line 59
but never used). -/
theorem C4_city_not_percent_encoded :
    build_weather_query ["new", "york"] testCfg =
      .ok "http://api.weatherapi.com/v1/current.json?key=KEY&q=new york" ∧
    quote_plus "new york" = "new+york" :=
  ⟨rfl, rfl⟩

/-- C5: on every non-2xx HTTP status the handler crashes.  The except
block dereferences `error.http_error`, an attribute the `urllib.error`
module does not have, so an `AttributeError` propagates before any of the
three `sys.exit` messages (401 / 404 / other) can be produced. -/
theorem C5_http_error_branch_raises (code : Nat) :
    get_weather_data (.httpError code) =
      .error (.exc (.attributeError "http_error")) := rfl

/-- C6: transport-level failures are not terminated cleanly.  `urlopen`'s
`URLError` is not caught by `except error.HTTPError` and propagates as an
unhandled exception (a traceback, not a descriptive message). -/
theorem C6_transport_failure_unhandled (reason : String) :
    get_weather_data (.transportFailure reason) =
      .error (.exc (.urlError reason)) ∧
    (PyTerm.exc (.urlError reason)).isCleanExit = false :=
  ⟨rfl, rfl⟩

/-- C7: a 2xx body that fails to parse as JSON makes `get_weather_data`
call `sys.exit("Couldn't read the server response.")`: a non-zero-status
termination with that message and no returned data. -/
theorem C7_json_decode_clean_exit (raw : String) :
    get_weather_data (.success (.malformed raw)) =
      .error (.exitMsg "Couldn't read the server response.") := rfl

/-- C8 counterexample: with an empty configuration (missing `secrets.ini`
reads as empty) the run terminates via an *uncaught KeyError* — not a
`ConfigurationError` surfaced as a clean terminal message — refuting the
claim as stated.  (The network-call count is 0, as the claim says.) -/
theorem C8_counterexample :
    ((mainRun ["london"] [] (.success (.jsonBody parisData))).term.map
      PyTerm.isCleanExit) = some false ∧
    (mainRun ["london"] [] (.success (.jsonBody parisData))).term =
      some (.exc (.keyError "weatherapi")) ∧
    (mainRun ["london"] [] (.success (.jsonBody parisData))).netCalls = 0 :=
  ⟨rfl, rfl, rfl⟩

/-- C8 amended: if the `weatherapi` section is absent (in particular when
the configuration file is missing, which reads as an empty configuration)
or the `api_key` key is absent, the run terminates with an uncaught
`KeyError` before any network call is attempted (zero network calls). -/
theorem C8_config_failure_before_network (argv : List String) (cfg : Config)
    (http : HttpResult) (hne : argv ≠ [])
    (hk : cfg.lookup "weatherapi" = none ∨
      ∃ sec, cfg.lookup "weatherapi" = some sec ∧ sec.lookup "api_key" = none) :
    (mainRun argv cfg http).netCalls = 0 ∧
    ∃ k, (mainRun argv cfg http).term = some (.exc (.keyError k)) := by
  have hargv : read_user_cli_args argv = .ok argv := by
    simp [read_user_cli_args, hne]
  rcases hk with hsec | ⟨sec, hsec, hkey⟩
  · have hb : build_weather_query argv cfg =
        .error (.exc (.keyError "weatherapi")) := by
      simp [build_weather_query, _get_api_key, pyGetItem, hsec,
        Except.mapError, bind, Except.bind]
    refine ⟨?_, "weatherapi", ?_⟩ <;> simp [mainRun, hargv, hb]
  · have hb : build_weather_query argv cfg =
        .error (.exc (.keyError "api_key")) := by
      simp [build_weather_query, _get_api_key, pyGetItem, hsec, hkey,
        Except.mapError, bind, Except.bind]
    refine ⟨?_, "api_key", ?_⟩ <;> simp [mainRun, hargv, hb]

/-- C8 witness: the amended theorem applied to a missing configuration
file (empty configuration). -/
theorem C8_config_failure_before_network_witness :
    (mainRun ["a"] [] (.transportFailure "x")).netCalls = 0 ∧
    ∃ k, (mainRun ["a"] [] (.transportFailure "x")).term =
      some (.exc (.keyError k)) :=
  C8_config_failure_before_network ["a"] [] (.transportFailure "x")
    (by decide) (Or.inl rfl)

/-- C9: output is not all-or-nothing.  On a well-formed 2xx response with
condition code 1000, the city segment "Paris (Paris)" is printed to
stdout (line 99), after which `_select_weather_display_params` raises
`TypeError` (line 102): the run leaves a partial line on stdout. -/
theorem C9_partial_line_printed :
    mainRun ["paris"] testCfg (.success (.jsonBody parisData)) =
      ⟨["Paris (Paris)"], 1, some (.exc .typeError)⟩ := rfl

/-- C10: for every non-empty token list accepted by the CLI reader, the
query URL embeds exactly the tokens joined with a single space
(`String.intercalate " "`). -/
theorem C10_city_tokens_joined_with_single_space (tokens : List String)
    (cfg : Config) (key : String) (hne : tokens ≠ [])
    (hkey : _get_api_key cfg = .ok key) :
    read_user_cli_args tokens = .ok tokens ∧
    build_weather_query tokens cfg =
      .ok (BASE_WEATHER_API_URL ++ "?key=" ++ key ++ "&q=" ++
        String.intercalate " " tokens) := by
  constructor
  · simp [read_user_cli_args, hne]
  · simp [build_weather_query, hkey, Except.mapError, bind, Except.bind,
      pure, Except.pure, pyJoin_eq_intercalate]

/-- C10 witness: the theorem applied to the tokens ["new", "york"]. -/
theorem C10_city_tokens_joined_with_single_space_witness :
    read_user_cli_args ["new", "york"] = .ok ["new", "york"] ∧
    build_weather_query ["new", "york"] testCfg =
      .ok (BASE_WEATHER_API_URL ++ "?key=" ++ "KEY" ++ "&q=" ++
        String.intercalate " " ["new", "york"]) :=
  C10_city_tokens_joined_with_single_space ["new", "york"] testCfg "KEY"
    (by decide) rfl

end Weather

